import Mathlib

/-!
Verification development for the drft repository core:
  src/services/currents.ts     (tidal current field model, color ramp, source registry)
  src/utils/gridGenerator.ts   (reference grid sampler, GPX track parse loop,
                                and the RaceMap playback, marker and layer logic)

Real numbers model JS floating point in exact arithmetic; rationals are used
where the code performs only field operations, so that witnesses can be
decided. JS loops that fail to terminate for a non-positive step are modelled
by Option, with none standing for divergence.
-/

namespace Drft

/-! ### Playback clock (RaceMap component, gridGenerator.ts lines 121-184, 269-271, 387-413) -/

/-- Playback timeline bounds, taken from RaceData startTime and endTime. -/
structure Timeline where
  startTime : ℚ
  endTime : ℚ
  deriving DecidableEq

/-- React state driving playback in RaceMap: currentTime, isPlaying, playbackSpeed. -/
structure ClockState where
  currentTime : ℚ
  isPlaying : Bool
  playbackSpeed : ℚ
  deriving DecidableEq

/-- Initial playback state: currentTime is set to the timeline start by
setCurrentTime applied to data.startTime, not playing, speed 100x. -/
def initState (tl : Timeline) : ClockState :=
  { currentTime := tl.startTime, isPlaying := false, playbackSpeed := 100 }

/-- One animation-frame callback of the animate loop: while playing, advance
currentTime by 1000 * playbackSpeed * (1/60) (the code assumes 60 fps and
takes no elapsed-time argument); when the advanced time passes endTime, clamp
to endTime and stop playing. When not playing the loop is not scheduled. -/
def tick (tl : Timeline) (s : ClockState) : ClockState :=
  if s.isPlaying then
    let next := s.currentTime + 1000 * s.playbackSpeed * (1 / 60)
    if tl.endTime < next then { s with currentTime := tl.endTime, isPlaying := false }
    else { s with currentTime := next }
  else s

/-- handleSliderChange sets currentTime to the slider value; the timeline range
input clamps the delivered value to the interval from startTime to endTime via
its min and max attributes. -/
def seek (tl : Timeline) (t : ℚ) (s : ClockState) : ClockState :=
  { s with currentTime := max tl.startTime (min t tl.endTime) }

/-- Play button: setIsPlaying true. -/
def play (s : ClockState) : ClockState := { s with isPlaying := true }

/-- Pause button: setIsPlaying false. -/
def pause (s : ClockState) : ClockState := { s with isPlaying := false }

/-- Speed slider: setPlaybackSpeed, with the range input clamping to 10..500. -/
def setSpeed (m : ℚ) (s : ClockState) : ClockState :=
  { s with playbackSpeed := max 10 (min m 500) }

/-- User-driven clock operations. -/
inductive ClockOp
  | play
  | pause
  | seek (t : ℚ)
  | setSpeed (m : ℚ)
  | tick
  deriving DecidableEq

def applyOp (tl : Timeline) (s : ClockState) : ClockOp → ClockState
  | .play => play s
  | .pause => pause s
  | .seek t => seek tl t s
  | .setSpeed m => setSpeed m s
  | .tick => tick tl s

/-- Run a sequence of operations from the initial state. -/
def runOps (tl : Timeline) (ops : List ClockOp) : ClockState :=
  ops.foldl (applyOp tl) (initState tl)

/-- Invariant carried through the operation sequence. -/
def ClockInv (tl : Timeline) (s : ClockState) : Prop :=
  tl.startTime ≤ s.currentTime ∧ s.currentTime ≤ tl.endTime ∧ 0 ≤ s.playbackSpeed

lemma clockInv_init (tl : Timeline) (h : tl.startTime ≤ tl.endTime) :
    ClockInv tl (initState tl) :=
  ⟨le_rfl, h, by norm_num [initState]⟩

lemma clockInv_step (tl : Timeline) (h : tl.startTime ≤ tl.endTime)
    (s : ClockState) (op : ClockOp) (hs : ClockInv tl s) :
    ClockInv tl (applyOp tl s op) := by
  obtain ⟨h1, h2, h3⟩ := hs
  cases op with
  | play => exact ⟨h1, h2, h3⟩
  | pause => exact ⟨h1, h2, h3⟩
  | seek t =>
    refine ⟨le_max_left _ _, max_le h (min_le_right _ _), h3⟩
  | setSpeed m =>
    refine ⟨h1, h2, le_trans (by norm_num) (le_max_left _ _)⟩
  | tick =>
    simp only [applyOp, tick]
    rcases hplay : s.isPlaying with _ | _
    · simpa using ⟨h1, h2, h3⟩
    · simp only [if_true]
      split_ifs with hend
      · exact ⟨h, le_rfl, h3⟩
      · constructor
        · have : (0:ℚ) ≤ 1000 * s.playbackSpeed * (1 / 60) := by positivity
          linarith
        · exact ⟨by linarith, h3⟩

/-! ### Track points and the marker lookup (gpxParser module and RaceMap lines 201-214) -/

/-- TrackPoint from the gpxParser module. The elevation is coord index 2 with
fallback 0; a timestamp of none models the NaN produced by Date parsing of a
malformed time string. -/
structure TrackPoint where
  longitude : ℚ
  latitude : ℚ
  elevation : ℚ
  timestamp : Option ℚ
  deriving DecidableEq

/-- Predicate used by findIndex in RaceMap: p.timestamp at or after the
current time; a NaN timestamp compares false. -/
def tsAtOrAfter (t : ℚ) (p : TrackPoint) : Bool :=
  match p.timestamp with
  | some v => decide (t ≤ v)
  | none => false

/-- Marker selection in RaceMap: the first point whose timestamp is at or
after currentTime, else the last point; on an empty track the index
expression is undefined, modelled none (markerLayer is then null). -/
def currentPoint (pts : List TrackPoint) (t : ℚ) : Option TrackPoint :=
  match pts.find? (tsAtOrAfter t) with
  | some p => some p
  | none => pts.getLast?

/-! ### GPX parse loop (gpxParser module lines 52-88) -/

/-- Raw coordinate triple delivered by the external togeojson parser. -/
structure Coord where
  lon : ℚ
  lat : ℚ
  ele : Option ℚ
  deriving DecidableEq

/-- Entry of the coordTimes array at a given index: absent or empty (falsy),
present but unparseable, or a valid time in milliseconds. -/
inductive TimeEntry
  | missing
  | malformed
  | valid (t : ℚ)
  deriving DecidableEq

/-- Per-point body of the parseGPX loop: a missing or empty time string is
falsy and the point is skipped; a malformed one is truthy and yields a NaN
timestamp (none); elevation is coord index 2 with fallback 0. -/
def mkTrackPoint (c : Coord) (e : TimeEntry) : Option TrackPoint :=
  match e with
  | .missing => none
  | .malformed =>
    some { longitude := c.lon, latitude := c.lat, elevation := c.ele.getD 0,
           timestamp := none }
  | .valid t =>
    some { longitude := c.lon, latitude := c.lat, elevation := c.ele.getD 0,
           timestamp := some t }

/-- coords.forEach with times indexed per coordinate; an index beyond the
times array reads undefined, which is the missing case. -/
def parsePoints : List Coord → List TimeEntry → List TrackPoint
  | [], _ => []
  | _ :: cs, [] => parsePoints cs []
  | c :: cs, e :: es =>
    match mkTrackPoint c e with
    | some p => p :: parsePoints cs es
    | none => parsePoints cs es

/-- RaceData: kept points plus start and end times, which are the first and
last kept timestamps (possibly NaN, modelled none) or 0 when no points were
kept. The geojson field is raw external parser output and is not modelled. -/
structure RaceData where
  trackPoints : List TrackPoint
  startTime : Option ℚ
  endTime : Option ℚ
  deriving DecidableEq

/-- parseGPX over the already-parsed coordinate and time arrays of the first
LineString track. -/
def parseGPX (coords : List Coord) (times : List TimeEntry) : RaceData :=
  let tps := parsePoints coords times
  { trackPoints := tps
    startTime := match tps.head? with | some p => p.timestamp | none => some 0
    endTime := match tps.getLast? with | some p => p.timestamp | none => some 0 }

/-- Two-point track of the end-to-end scenario. -/
def track2 : List TrackPoint :=
  [{ longitude := 4.27, latitude := 52.11, elevation := 0, timestamp := some 0 },
   { longitude := 4.30, latitude := 52.12, elevation := 0, timestamp := some 3600000 }]

lemma find?_first {α : Type} (q : α → Bool) :
    ∀ (l : List α) (p : α), l.find? q = some p →
      ∃ i, ∃ hi : i < l.length, l.get ⟨i, hi⟩ = p ∧ q p = true ∧
        ∀ j, ∀ hj : j < l.length, j < i → q (l.get ⟨j, hj⟩) = false := by
  intro l
  induction l with
  | nil => intro p hp; simp [List.find?] at hp
  | cons a rest ih =>
    intro p hp
    by_cases ha : q a
    · rw [List.find?_cons_of_pos _ ha] at hp
      have hap : a = p := by injection hp
      subst hap
      exact ⟨0, by simp, rfl, ha, fun j hj hj0 => absurd hj0 (Nat.not_lt_zero j)⟩
    · rw [List.find?_cons_of_neg _ ha] at hp
      obtain ⟨i, hi, hget, hq, hfirst⟩ := ih p hp
      refine ⟨i + 1, by simpa using Nat.succ_lt_succ hi, by simpa using hget, hq, ?_⟩
      intro j hj hji
      cases j with
      | zero => simpa using ha
      | succ k =>
        have hk : k < rest.length := by simpa using Nat.lt_of_succ_lt_succ hj
        have := hfirst k hk (Nat.lt_of_succ_lt_succ hji)
        simpa using this

/-! ### Claim theorems on the rational side -/

/-- Claim C1 (code bug): the animate loop advances currentTime by a fixed
1000 * playbackSpeed * (1/60) per frame, an assumed 60 fps duration that does
not depend on the real elapsed time between frames. With multiplier 100 and a
real elapsed time of 100 ms the claimed advance r times m is 10000 ms, yet the
code advances by 5000/3 ms. The clamp part of the claim does hold: a tick that
would pass endTime sets currentTime to endTime and stops playing. -/
theorem tick_uses_fixed_frame_advance :
    (tick ⟨0, 1000000000⟩ ⟨0, true, 100⟩).currentTime = 5000 / 3 ∧
      ((5000 : ℚ) / 3 ≠ 100 * 100) ∧
      tick ⟨0, 10⟩ ⟨5, true, 100⟩ = ⟨10, false, 100⟩ := by
  refine ⟨by norm_num [tick], by norm_num, by norm_num [tick]⟩

/-- Claim C2: for every timeline with startTime at most endTime, after any
finite sequence of play, pause, seek, setSpeed and tick operations from the
initial state, currentTime stays between startTime and endTime. -/
theorem clock_time_within_bounds (tl : Timeline) (h : tl.startTime ≤ tl.endTime)
    (ops : List ClockOp) :
    tl.startTime ≤ (runOps tl ops).currentTime ∧
      (runOps tl ops).currentTime ≤ tl.endTime := by
  have main : ∀ (l : List ClockOp) (s : ClockState), ClockInv tl s →
      ClockInv tl (l.foldl (applyOp tl) s) := by
    intro l
    induction l with
    | nil => intro s hs; exact hs
    | cons op rest ih => intro s hs; exact ih _ (clockInv_step tl h s op hs)
  have hfin := main ops (initState tl) (clockInv_init tl h)
  exact ⟨hfin.1, hfin.2.1⟩

/-- Witness for C2 at a concrete timeline and operation sequence. -/
theorem clock_time_within_bounds_witness :
    (0 : ℚ) ≤ (runOps ⟨0, 10⟩ [ClockOp.play, ClockOp.tick]).currentTime ∧
      (runOps ⟨0, 10⟩ [ClockOp.play, ClockOp.tick]).currentTime ≤ 10 :=
  clock_time_within_bounds ⟨0, 10⟩ (by norm_num) [ClockOp.play, ClockOp.tick]

/-- Claim C4: the marker lookup returns the first point whose timestamp is at
or after t; when no point qualifies it returns the last point; on the 2-point
track with timestamps 0 and 3600000 ms, time 1800000 resolves to the second
point. -/
theorem currentPoint_at_or_after :
    (∀ (pts : List TrackPoint) (t : ℚ),
        (∃ p ∈ pts, tsAtOrAfter t p = true) →
          ∃ i, ∃ hi : i < pts.length,
            currentPoint pts t = some (pts.get ⟨i, hi⟩) ∧
            tsAtOrAfter t (pts.get ⟨i, hi⟩) = true ∧
            ∀ j, ∀ hj : j < pts.length, j < i →
              tsAtOrAfter t (pts.get ⟨j, hj⟩) = false) ∧
    (∀ (pts : List TrackPoint) (t : ℚ),
        (∀ p ∈ pts, tsAtOrAfter t p = false) → currentPoint pts t = pts.getLast?) ∧
    currentPoint track2 1800000 =
      some { longitude := 4.30, latitude := 52.12, elevation := 0,
             timestamp := some 3600000 } := by
  refine ⟨?_, ?_, by norm_num [currentPoint, track2, tsAtOrAfter, List.find?]⟩
  · intro pts t hex
    rcases hfind : pts.find? (tsAtOrAfter t) with _ | p
    · exfalso
      obtain ⟨p, hp, hq⟩ := hex
      have := List.find?_eq_none.mp hfind p hp
      simp [hq] at this
    · obtain ⟨i, hi, hget, hq, hfirst⟩ := find?_first (tsAtOrAfter t) pts p hfind
      refine ⟨i, hi, ?_, by rw [hget]; exact hq, hfirst⟩
      rw [currentPoint, hfind, hget]
  · intro pts t hall
    have hfind : pts.find? (tsAtOrAfter t) = none :=
      List.find?_eq_none.mpr (by intro p hp; simp [hall p hp])
    rw [currentPoint, hfind]

/-- Witness for C4: on the 2-point track at a time beyond the last timestamp,
the lookup falls back to the last point. -/
theorem currentPoint_at_or_after_witness :
    currentPoint track2 10000000000 = track2.getLast? :=
  currentPoint_at_or_after.2.1 track2 10000000000
    (by
      intro p hp
      simp only [track2, List.mem_cons, List.not_mem_nil, or_false] at hp
      rcases hp with h | h <;> subst h <;>
        norm_num [tsAtOrAfter, decide_eq_false_iff_not])

/-- Counterexample to claim C8: a point whose time entry is present but
malformed is kept with a NaN timestamp, not dropped, and the returned RaceData
carries no dropped-point count. -/
theorem malformed_timestamp_kept :
    (parseGPX [{ lon := 1, lat := 2, ele := none }] [TimeEntry.malformed]).trackPoints =
      [{ longitude := 1, latitude := 2, elevation := 0, timestamp := none }] := rfl

/-- Claim C8 amended: a point whose timestamp entry is missing or empty is
dropped and parsing of the remaining points continues without an exception;
a point with a malformed non-empty timestamp is kept with a NaN timestamp;
no count of dropped points is propagated, the result holding only the
surviving points and the derived times. -/
theorem parse_drop_semantics :
    (∀ (c : Coord) (cs : List Coord) (es : List TimeEntry),
        parsePoints (c :: cs) (TimeEntry.missing :: es) = parsePoints cs es) ∧
    (∀ (c : Coord) (cs : List Coord) (es : List TimeEntry),
        parsePoints (c :: cs) (TimeEntry.malformed :: es) =
          { longitude := c.lon, latitude := c.lat, elevation := c.ele.getD 0,
            timestamp := none } :: parsePoints cs es) ∧
    (∀ (c : Coord) (cs : List Coord) (es : List TimeEntry) (t : ℚ),
        parsePoints (c :: cs) (TimeEntry.valid t :: es) =
          { longitude := c.lon, latitude := c.lat, elevation := c.ele.getD 0,
            timestamp := some t } :: parsePoints cs es) ∧
    (∀ (c : Coord) (cs : List Coord), parsePoints (c :: cs) [] = parsePoints cs []) :=
  ⟨fun _ _ _ => rfl, fun _ _ _ => rfl, fun _ _ _ _ => rfl, fun _ _ => rfl⟩

/-- Claim C9: a parse producing no track points yields startTime and endTime
both 0, and the marker lookup on the empty track degrades to none (no marker)
rather than failing. -/
theorem empty_track_defaults :
    (∀ (coords : List Coord) (times : List TimeEntry),
        (parseGPX coords times).trackPoints = [] →
          (parseGPX coords times).startTime = some 0 ∧
            (parseGPX coords times).endTime = some 0) ∧
    (∀ t : ℚ, currentPoint [] t = none) := by
  constructor
  · intro coords times h
    have htps : parsePoints coords times = [] := h
    constructor
    · show (match (parsePoints coords times).head? with
        | some p => p.timestamp | none => some 0) = some 0
      rw [htps]; rfl
    · show (match (parsePoints coords times).getLast? with
        | some p => p.timestamp | none => some 0) = some 0
      rw [htps]; rfl
  · intro t; rfl

/-- Witness for C9 at the empty input. -/
theorem empty_track_defaults_witness :
    (parseGPX [] []).startTime = some 0 ∧ (parseGPX [] []).endTime = some 0 :=
  empty_track_defaults.1 [] [] rfl

/-! ### Grid sampler and current field model (real-number side) -/

noncomputable section

/-- Values visited by a JS for-loop that starts at lo, tests at most hi, and
steps by step. The loop body runs zero times when hi is below lo; it never
terminates when lo is at most hi and the step is not positive (none); else it
visits lo + i * step for i up to the floor of (hi - lo) / step, which in
exact arithmetic coincides with the repeated-addition accumulation of the
source loops. -/
def realRange (lo hi step : ℝ) : Option (List ℝ) :=
  if hi < lo then some []
  else if step ≤ 0 then none
  else some ((List.range ((⌊(hi - lo) / step⌋).toNat + 1)).map fun i : ℕ => lo + (i : ℝ) * step)

/-- Bounding box in the array order minLon, minLat, maxLon, maxLat. -/
structure Bounds where
  minLon : ℝ
  minLat : ℝ
  maxLon : ℝ
  maxLat : ℝ

/-- Reference-grid line: a two-vertex path. -/
structure GridLine where
  path : List (ℝ × ℝ)

/-- Latitude-line loop of generateGrid: lat steps by spacingNm / 60 degrees,
each step emitting a horizontal segment spanning the box. -/
def latLines (b : Bounds) (spacingNm : ℝ) : Option (List GridLine) :=
  (realRange b.minLat b.maxLat (spacingNm / 60)).map
    (List.map fun lat => ⟨[(b.minLon, lat), (b.maxLon, lat)]⟩)

/-- Longitude-line loop of generateGrid: lon steps by
spacingNm / (60 * cos(centerLatRad)) with the box vertical midpoint as the
single correction latitude; there is no clamp on the cosine. -/
def lonLines (b : Bounds) (spacingNm : ℝ) : Option (List GridLine) :=
  let centerLatRad := ((b.minLat + b.maxLat) / 2) * (Real.pi / 180)
  (realRange b.minLon b.maxLon (spacingNm / (60 * Real.cos centerLatRad))).map
    (List.map fun lon => ⟨[(lon, b.minLat), (lon, b.maxLat)]⟩)

/-- generateGrid (gridGenerator.ts lines 5-34, source default spacing 0.1):
latitude lines first, then longitude lines; divergence of either loop means
the function never returns. -/
def generateGrid (b : Bounds) (spacingNm : ℝ) : Option (List GridLine) :=
  match latLines b spacingNm with
  | none => none
  | some lats =>
    match lonLines b spacingNm with
    | none => none
    | some lons => some (lats ++ lons)

/-- TIDE_PERIOD_MS, the 12.42 hour principal lunar semi-diurnal period. -/
def TIDE_PERIOD_MS : ℝ := 12.42 * 3600 * 1000

/-- MAX_CURRENT_SPEED in m/s. -/
def MAX_CURRENT_SPEED : ℝ := 1.5

/-- FLOOD_DIR_RAD, 45 degrees in radians. -/
def FLOOD_DIR_RAD : ℝ := 45 * Real.pi / 180

/-- JS remainder a % b for finite inputs: a - b * trunc(a / b), truncation
toward zero. -/
def jsMod (a b : ℝ) : ℝ :=
  a - b * (if 0 ≤ a / b then (⌊a / b⌋ : ℝ) else (⌈a / b⌉ : ℝ))

/-- Math.atan2 applied as atan2(y, x). -/
def jsAtan2 (y x : ℝ) : ℝ :=
  if 0 < x then Real.arctan (y / x)
  else if x < 0 then
    (if 0 ≤ y then Real.arctan (y / x) + Real.pi else Real.arctan (y / x) - Real.pi)
  else if 0 < y then Real.pi / 2
  else if y < 0 then -(Real.pi / 2)
  else 0

/-- One entry of the getGrid output: position, vector with direction in its
fourth slot, speed, color. -/
structure CurrentPoint where
  position : ℝ × ℝ
  vector : ℝ × ℝ × ℝ × ℝ
  speed : ℝ
  color : ℝ × ℝ × ℝ

/-- getColor (currents.ts lines 26-45): two-segment ramp, blue to purple to
magenta, over intensity = min(speed / MAX_CURRENT_SPEED, 1). -/
def getColor (speed : ℝ) : ℝ × ℝ × ℝ :=
  let intensity := min (speed / MAX_CURRENT_SPEED) 1
  if intensity < 0.5 then
    let t := intensity * 2
    (30 + (88 - 30) * t, 58 + (28 - 58) * t, 138 + (135 - 138) * t)
  else
    let t := (intensity - 0.5) * 2
    (88 + (255 - 88) * t, 28 + (0 - 28) * t, 135 + (200 - 135) * t)

/-- Body of the generateMockGrid loops at one lattice point. -/
def mockPoint (timestamp phaseOffset speedMultiplier directionOffset lon lat : ℝ) :
    CurrentPoint :=
  let phase := jsMod timestamp TIDE_PERIOD_MS / TIDE_PERIOD_MS + phaseOffset
  let angle := phase * 2 * Real.pi
  let currentSpeedSigned := Real.cos angle * MAX_CURRENT_SPEED * speedMultiplier
  let speed := |currentSpeedSigned|
  let flowDir :=
    (if 0 < currentSpeedSigned then FLOOD_DIR_RAD else FLOOD_DIR_RAD + Real.pi) +
      directionOffset
  let u := speed * Real.sin flowDir
  let v := speed * Real.cos flowDir
  let direction0 := jsAtan2 u v * 180 / Real.pi
  let direction := if direction0 < 0 then direction0 + 360 else direction0
  { position := (lon, lat)
    vector := (u, v, 0, direction)
    speed := speed
    color := getColor speed }

/-- generateMockGrid (currents.ts lines 47-83): outer lon loop and inner lat
loop, both stepping by resolution; when the outer loop runs no iteration the
inner loop is never entered. -/
def generateMockGrid (b : Bounds)
    (timestamp resolution phaseOffset speedMultiplier directionOffset : ℝ) :
    Option (List CurrentPoint) :=
  match realRange b.minLon b.maxLon resolution with
  | none => none
  | some [] => some []
  | some lons =>
    match realRange b.minLat b.maxLat resolution with
    | none => none
    | some lats =>
      some (lons.flatMap fun lon => lats.map fun lat =>
        mockPoint timestamp phaseOffset speedMultiplier directionOffset lon lat)

/-- Catalogue entry of the source registry; getGrid takes the resolution
explicitly (source default 0.01). -/
structure DataSource where
  id : String
  name : String
  description : String
  infoUrl : String
  qualityDescription : String
  getGrid : Bounds → ℝ → ℝ → Option (List CurrentPoint)

/-- First registry entry: phase offset 0, speed multiplier 1, direction
offset 0. -/
def rwsSource : DataSource :=
  { id := "rws"
    name := "RWS (Matroos)"
    description := "Rijkswaterstaat Hydro Meteo Data"
    infoUrl := "https://waterinfo.rws.nl/"
    qualityDescription := "High-resolution measurement and model data from the Dutch Ministry of Infrastructure. Validated against local buoys. Best for coastal waters."
    getGrid := fun b t r => generateMockGrid b t r 0 1 0 }

/-- Second registry entry: phase offset 0.25, speed multiplier 0.8, direction
offset 0.1. -/
def cmemsSource : DataSource :=
  { id := "cmems"
    name := "CMEMS (Copernicus)"
    description := "Global Ocean Physics Analysis"
    infoUrl := "https://marine.copernicus.eu/"
    qualityDescription := "Global reanalysis and forecast data. Lower resolution than RWS but covers wider offshore areas. Good for general trend analysis."
    getGrid := fun b t r => generateMockGrid b t r 0.25 0.8 0.1 }

/-- DATA_SOURCES registry. -/
def DATA_SOURCES : List DataSource := [rwsSource, cmemsSource]

/-- Backward-compatible default export: the first registry getGrid. -/
def getGridCurrents : Bounds → ℝ → ℝ → Option (List CurrentPoint) :=
  rwsSource.getGrid

end

/-! ### Tidal periodicity (claim C3) -/

lemma tide_period_pos : (0 : ℝ) < TIDE_PERIOD_MS := by
  norm_num [TIDE_PERIOD_MS]

lemma jsMod_add_period (t P : ℝ) (ht : 0 ≤ t) (hP : 0 < P) :
    jsMod (t + P) P = jsMod t P := by
  have h1 : 0 ≤ t / P := div_nonneg ht hP.le
  have h2 : 0 ≤ (t + P) / P := div_nonneg (by linarith) hP.le
  have h3 : (t + P) / P = t / P + 1 := by field_simp
  unfold jsMod
  rw [if_pos h2, if_pos h1, h3, Int.floor_add_one]
  push_cast
  ring

lemma mockPoint_add_period (t po m d : ℝ) (ht : 0 ≤ t) (lon lat : ℝ) :
    mockPoint (t + TIDE_PERIOD_MS) po m d lon lat = mockPoint t po m d lon lat := by
  unfold mockPoint
  rw [jsMod_add_period t TIDE_PERIOD_MS ht tide_period_pos]

lemma generateMockGrid_add_period (b : Bounds) (t r po m d : ℝ) (ht : 0 ≤ t) :
    generateMockGrid b (t + TIDE_PERIOD_MS) r po m d =
      generateMockGrid b t r po m d := by
  unfold generateMockGrid
  simp only [mockPoint_add_period t po m d ht]

/-- Claim C3: for every registry source, bounding box, resolution and
timestamp t at least 0, getGrid at t and at t plus one tidal period (12.42
hours in milliseconds) agree on speed and direction at every sample point;
indeed the entire outputs coincide. -/
theorem getGrid_tidal_period (src : DataSource) (hsrc : src ∈ DATA_SOURCES)
    (b : Bounds) (t r : ℝ) (ht : 0 ≤ t) :
    src.getGrid b (t + TIDE_PERIOD_MS) r = src.getGrid b t r := by
  have hcases : src = rwsSource ∨ src = cmemsSource := by
    simpa [DATA_SOURCES] using hsrc
  rcases hcases with h | h <;> subst h
  · exact generateMockGrid_add_period b t r 0 1 0 ht
  · exact generateMockGrid_add_period b t r 0.25 0.8 0.1 ht

/-- Witness for C3: first registry source at the origin box and time 0. -/
theorem getGrid_tidal_period_witness :
    rwsSource.getGrid ⟨0, 0, 1, 1⟩ (0 + TIDE_PERIOD_MS) 1 =
      rwsSource.getGrid ⟨0, 0, 1, 1⟩ 0 1 :=
  getGrid_tidal_period rwsSource (by simp [DATA_SOURCES]) ⟨0, 0, 1, 1⟩ 0 1 le_rfl

/-! ### Grid sampler claims C5 and C6 -/

lemma realRange_single (lo step : ℝ) (hstep : 0 < step) :
    realRange lo lo step = some [lo] := by
  unfold realRange
  rw [if_neg (lt_irrefl lo), if_neg (not_le.mpr hstep)]
  simp [List.range_succ]

lemma realRange_length (lo hi step : ℝ) (hle : lo ≤ hi) (hstep : 0 < step) :
    (realRange lo hi step).map List.length =
      some ((⌊(hi - lo) / step⌋).toNat + 1) := by
  unfold realRange
  rw [if_neg (not_lt.mpr hle), if_neg (not_le.mpr hstep)]
  simp

lemma latLines_box0 :
    latLines ⟨0, 0, 0, 0⟩ (1/10) = some [⟨[((0:ℝ), (0:ℝ)), (0, 0)]⟩] := by
  show (realRange 0 0 ((1/10) / 60)).map
      (List.map fun lat => (⟨[((0:ℝ), lat), (0, lat)]⟩ : GridLine)) = _
  rw [realRange_single 0 ((1/10) / 60) (by norm_num)]
  rfl

lemma lonLines_box0 :
    lonLines ⟨0, 0, 0, 0⟩ (1/10) = some [⟨[((0:ℝ), (0:ℝ)), (0, 0)]⟩] := by
  show (realRange 0 0 ((1/10) / (60 * Real.cos ((((0:ℝ) + 0) / 2) * (Real.pi / 180))))).map
      (List.map fun lon => (⟨[(lon, (0:ℝ)), (lon, 0)]⟩ : GridLine)) = _
  have hc : (((0:ℝ) + 0) / 2) * (Real.pi / 180) = 0 := by norm_num
  rw [hc, Real.cos_zero]
  rw [show ((1:ℝ)/10) / (60 * 1) = (1/10) / 60 by norm_num]
  rw [realRange_single 0 ((1/10) / 60) (by norm_num)]
  rfl

/-- Counterexample to claim C5: the fully degenerate box with all four bounds
0 (so minLon = maxLon and minLat = maxLat) does not produce an empty sequence;
the sampler emits one degenerate latitude line and one degenerate longitude
line. -/
theorem degenerate_box_not_empty :
    (generateGrid ⟨0, 0, 0, 0⟩ (1/10)).map List.length = some 2 ∧
      generateGrid ⟨0, 0, 0, 0⟩ (1/10) ≠ some [] := by
  have hg : generateGrid ⟨0, 0, 0, 0⟩ (1/10) =
      some [⟨[((0:ℝ), (0:ℝ)), (0, 0)]⟩, ⟨[((0:ℝ), (0:ℝ)), (0, 0)]⟩] := by
    unfold generateGrid
    rw [latLines_box0, lonLines_box0]
    rfl
  rw [hg]
  exact ⟨rfl, fun h => List.cons_ne_nil _ _ (Option.some.inj h)⟩

/-- Claim C5 amended: only a box strictly inverted on both axes yields the
empty sequence; a box with equal bounds on an axis still emits a degenerate
line there (see the counterexample); and the latitude-correction divisor is
not clamped: for a box centered on the pole the exact-arithmetic longitude
step is zero and the longitude loop does not terminate (modelled none). -/
theorem degenerate_box_behavior :
    (∀ (b : Bounds) (s : ℝ), b.maxLon < b.minLon → b.maxLat < b.minLat →
        generateGrid b s = some []) ∧
    (∀ (s lo hi : ℝ), 0 < s → lo ≤ hi →
        generateGrid ⟨lo, 90, hi, 90⟩ s = none) := by
  constructor
  · intro b s hlon hlat
    have h1 : latLines b s = some [] := by
      show (realRange b.minLat b.maxLat (s / 60)).map
          (List.map fun lat => (⟨[(b.minLon, lat), (b.maxLon, lat)]⟩ : GridLine)) = _
      unfold realRange
      rw [if_pos hlat]
      rfl
    have h2 : lonLines b s = some [] := by
      show (realRange b.minLon b.maxLon
          (s / (60 * Real.cos (((b.minLat + b.maxLat) / 2) * (Real.pi / 180))))).map
          (List.map fun lon => (⟨[(lon, b.minLat), (lon, b.maxLat)]⟩ : GridLine)) = _
      unfold realRange
      rw [if_pos hlon]
      rfl
    unfold generateGrid
    rw [h1, h2]
    rfl
  · intro s lo hi hs hle
    have hlat : latLines ⟨lo, 90, hi, 90⟩ s = some [⟨[(lo, (90:ℝ)), (hi, 90)]⟩] := by
      show (realRange 90 90 (s / 60)).map
          (List.map fun lat => (⟨[(lo, lat), (hi, lat)]⟩ : GridLine)) = _
      rw [realRange_single 90 (s / 60) (by positivity)]
      rfl
    have hlon : lonLines ⟨lo, 90, hi, 90⟩ s = none := by
      show (realRange lo hi (s / (60 * Real.cos ((((90:ℝ) + 90) / 2) * (Real.pi / 180))))).map
          (List.map fun lon => (⟨[(lon, (90:ℝ)), (lon, 90)]⟩ : GridLine)) = _
      have hc : (((90:ℝ) + 90) / 2) * (Real.pi / 180) = Real.pi / 2 := by ring
      rw [hc, Real.cos_pi_div_two, mul_zero, div_zero]
      unfold realRange
      rw [if_neg (not_lt.mpr hle), if_pos le_rfl]
      rfl
    unfold generateGrid
    rw [hlat, hlon]

/-- Witness for the amended C5 at a concrete pole-centered box. -/
theorem degenerate_box_behavior_witness :
    generateGrid ⟨0, 90, 1, 90⟩ 1 = none :=
  degenerate_box_behavior.2 1 0 1 one_pos (by norm_num)

/-- Bounding box of the C6 scenario. -/
noncomputable def bounds6 : Bounds := ⟨4, 52, 4.5, 52.3⟩

lemma floor_180 : ⌊(180:ℝ)⌋ = 180 := by
  rw [show (180:ℝ) = ((180:ℤ):ℝ) by norm_num, Int.floor_intCast]

lemma realRange_bounds6_lat :
    realRange 52 52.3 ((1/10) / 60) =
      some ((List.range 181).map fun i : ℕ => (52:ℝ) + (i : ℝ) * ((1/10) / 60)) := by
  unfold realRange
  rw [if_neg (by norm_num), if_neg (by norm_num)]
  have harg : ((52.3:ℝ) - 52) / ((1/10) / 60) = 180 := by norm_num
  rw [harg, floor_180]
  rfl

lemma latLines_bounds6_length :
    (latLines bounds6 (1/10)).map List.length = some 181 := by
  show (Option.map
      (List.map fun lat => (⟨[((4:ℝ), lat), (4.5, lat)]⟩ : GridLine))
      (realRange 52 52.3 ((1/10) / 60))).map List.length = some 181
  rw [realRange_bounds6_lat]
  simp

/-- Counterexample to claim C6: the spacing parameter of the sampler is in
nautical miles (converted at 60 nautical miles per degree), not degrees, so
for bounds [4, 52, 4.5, 52.3] at spacing 0.1 the sampler emits 181 latitude
lines, not 4 plus or minus 1. -/
theorem latLine_count_not_four :
    (latLines bounds6 (1/10)).map List.length = some 181 ∧
      ¬(3 ≤ (181:ℕ) ∧ (181:ℕ) ≤ 5) :=
  ⟨latLines_bounds6_length, by norm_num⟩

lemma cos_bounds6_pos : 0 < Real.cos ((52.15:ℝ) * (Real.pi / 180)) := by
  apply Real.cos_pos_of_mem_Ioo
  constructor
  · have hp := Real.pi_pos
    nlinarith
  · have hp := Real.pi_pos
    nlinarith

/-- Claim C6 amended: with spacing interpreted in nautical miles and the
longitude step always latitude-corrected by the center-latitude cosine, the
bounds [4, 52, 4.5, 52.3] at spacing 0.1 produce 181 latitude lines plus
floor(300 * cos(52.15 degrees)) + 1 longitude lines. -/
theorem grid_line_count_nm :
    ∃ l, generateGrid bounds6 (1/10) = some l ∧
      l.length =
        181 + ((⌊(300:ℝ) * Real.cos ((52.15:ℝ) * (Real.pi / 180))⌋).toNat + 1) := by
  have hc : (((52:ℝ) + 52.3) / 2) * (Real.pi / 180) = (52.15:ℝ) * (Real.pi / 180) := by
    norm_num
  set c := Real.cos ((52.15:ℝ) * (Real.pi / 180)) with hcdef
  have hcpos : 0 < c := cos_bounds6_pos
  have hstep : 0 < (1/10 : ℝ) / (60 * c) := by positivity
  have hlat : realRange 52 52.3 ((1/10) / 60) =
      some ((List.range 181).map fun i : ℕ => (52:ℝ) + (i : ℝ) * ((1/10) / 60)) := by
    unfold realRange
    rw [if_neg (by norm_num), if_neg (by norm_num)]
    have harg : ((52.3:ℝ) - 52) / ((1/10) / 60) = 180 := by norm_num
    rw [harg, floor_180]
    rfl
  have hlon : realRange 4 4.5 ((1/10) / (60 * c)) =
      some ((List.range ((⌊(300:ℝ) * c⌋).toNat + 1)).map
        fun i : ℕ => (4:ℝ) + (i : ℝ) * ((1/10) / (60 * c))) := by
    unfold realRange
    rw [if_neg (by norm_num), if_neg (not_le.mpr hstep)]
    have harg : ((4.5:ℝ) - 4) / ((1/10) / (60 * c)) = 300 * c := by
      field_simp
      ring
    rw [harg]
  have hlatL : latLines bounds6 (1/10) =
      some (((List.range 181).map fun i : ℕ => (52:ℝ) + (i : ℝ) * ((1/10) / 60)).map
        fun lat => (⟨[((4:ℝ), lat), (4.5, lat)]⟩ : GridLine)) := by
    show (realRange 52 52.3 ((1/10) / 60)).map
        (List.map fun lat => (⟨[((4:ℝ), lat), (4.5, lat)]⟩ : GridLine)) = _
    rw [hlat]
    rfl
  have hlonL : lonLines bounds6 (1/10) =
      some (((List.range ((⌊(300:ℝ) * c⌋).toNat + 1)).map
          fun i : ℕ => (4:ℝ) + (i : ℝ) * ((1/10) / (60 * c))).map
        fun lon => (⟨[(lon, (52:ℝ)), (lon, 52.3)]⟩ : GridLine)) := by
    show (realRange 4 4.5 ((1/10) / (60 * Real.cos ((((52:ℝ) + 52.3) / 2) * (Real.pi / 180))))).map
        (List.map fun lon => (⟨[(lon, (52:ℝ)), (lon, 52.3)]⟩ : GridLine)) = _
    rw [hc, ← hcdef, hlon]
    rfl
  refine ⟨(((List.range 181).map fun i : ℕ => (52:ℝ) + (i : ℝ) * ((1/10) / 60)).map
        fun lat => (⟨[((4:ℝ), lat), (4.5, lat)]⟩ : GridLine)) ++
      (((List.range ((⌊(300:ℝ) * c⌋).toNat + 1)).map
          fun i : ℕ => (4:ℝ) + (i : ℝ) * ((1/10) / (60 * c))).map
        fun lon => (⟨[(lon, (52:ℝ)), (lon, 52.3)]⟩ : GridLine)), ?_, ?_⟩
  · unfold generateGrid
    rw [hlatL, hlonL]
  · simp

/-! ### Color ramp (claim C7) -/

/-- Channel-wise linear interpolation, stated from the spec wording for
comparison with the getColor branches. -/
noncomputable def lerp3 (a b : ℝ × ℝ × ℝ) (t : ℝ) : ℝ × ℝ × ℝ :=
  (a.1 + (b.1 - a.1) * t, a.2.1 + (b.2.1 - a.2.1) * t, a.2.2 + (b.2.2 - a.2.2) * t)

lemma getColor_eq_ite (s : ℝ) :
    getColor s =
      if min (s / MAX_CURRENT_SPEED) 1 < 0.5 then
        (30 + (88 - 30) * (min (s / MAX_CURRENT_SPEED) 1 * 2),
         58 + (28 - 58) * (min (s / MAX_CURRENT_SPEED) 1 * 2),
         138 + (135 - 138) * (min (s / MAX_CURRENT_SPEED) 1 * 2))
      else
        (88 + (255 - 88) * ((min (s / MAX_CURRENT_SPEED) 1 - 0.5) * 2),
         28 + (0 - 28) * ((min (s / MAX_CURRENT_SPEED) 1 - 0.5) * 2),
         135 + (200 - 135) * ((min (s / MAX_CURRENT_SPEED) 1 - 0.5) * 2)) := rfl

/-- Claim C7: speed 0 maps to the slow endpoint (30, 58, 138), any speed at or
above MAX_CURRENT_SPEED maps to the fast endpoint (255, 0, 200), half the
maximum maps exactly to the mid color (88, 28, 135), and on each of the two
segments every channel is an independent linear interpolation of the segment
endpoints in the clamped normalized speed. -/
theorem getColor_ramp :
    getColor 0 = (30, 58, 138) ∧
    (∀ s : ℝ, MAX_CURRENT_SPEED ≤ s → getColor s = (255, 0, 200)) ∧
    getColor (MAX_CURRENT_SPEED / 2) = (88, 28, 135) ∧
    (∀ s : ℝ, 0 ≤ s → s ≤ MAX_CURRENT_SPEED / 2 →
        getColor s = lerp3 (30, 58, 138) (88, 28, 135) (s / MAX_CURRENT_SPEED * 2)) ∧
    (∀ s : ℝ, MAX_CURRENT_SPEED / 2 ≤ s → s ≤ MAX_CURRENT_SPEED →
        getColor s = lerp3 (88, 28, 135) (255, 0, 200)
          ((s / MAX_CURRENT_SPEED - 0.5) * 2)) := by
  refine ⟨?_, ?_, ?_, ?_, ?_⟩
  · rw [getColor_eq_ite]
    rw [show (0:ℝ) / MAX_CURRENT_SPEED = 0 by norm_num [MAX_CURRENT_SPEED]]
    rw [min_eq_left (by norm_num : (0:ℝ) ≤ 1)]
    rw [if_pos (by norm_num : (0:ℝ) < 0.5)]
    norm_num
  · intro s hs
    have h1 : (1:ℝ) ≤ s / MAX_CURRENT_SPEED := by
      rw [le_div_iff₀ (by norm_num [MAX_CURRENT_SPEED] : (0:ℝ) < MAX_CURRENT_SPEED)]
      linarith
    rw [getColor_eq_ite, min_eq_right h1, if_neg (by norm_num : ¬((1:ℝ) < 0.5))]
    norm_num
  · rw [getColor_eq_ite]
    rw [show MAX_CURRENT_SPEED / 2 / MAX_CURRENT_SPEED = 0.5 by
      norm_num [MAX_CURRENT_SPEED]]
    rw [min_eq_left (by norm_num : (0.5:ℝ) ≤ 1)]
    rw [if_neg (lt_irrefl (0.5:ℝ))]
    norm_num
  · intro s h0 h1
    have hmax : (0:ℝ) < MAX_CURRENT_SPEED := by norm_num [MAX_CURRENT_SPEED]
    have hm : min (s / MAX_CURRENT_SPEED) 1 = s / MAX_CURRENT_SPEED :=
      min_eq_left ((div_le_one hmax).mpr (by linarith))
    rw [getColor_eq_ite, hm]
    by_cases hlt : s / MAX_CURRENT_SPEED < 0.5
    · rw [if_pos hlt]
      unfold lerp3
      simp only [Prod.mk.injEq]
    · rw [if_neg hlt]
      have h2 : (0.5:ℝ) ≤ s / MAX_CURRENT_SPEED := not_lt.mp hlt
      have h3 : s = MAX_CURRENT_SPEED / 2 := by
        rw [le_div_iff₀ hmax] at h2
        linarith
      subst h3
      rw [show MAX_CURRENT_SPEED / 2 / MAX_CURRENT_SPEED = 0.5 by
        norm_num [MAX_CURRENT_SPEED]]
      unfold lerp3
      simp only [Prod.mk.injEq]
      norm_num
  · intro s h0 h1
    have hmax : (0:ℝ) < MAX_CURRENT_SPEED := by norm_num [MAX_CURRENT_SPEED]
    have hm : min (s / MAX_CURRENT_SPEED) 1 = s / MAX_CURRENT_SPEED :=
      min_eq_left ((div_le_one hmax).mpr h1)
    have h2 : (0.5:ℝ) ≤ s / MAX_CURRENT_SPEED := by
      rw [le_div_iff₀ hmax]
      linarith
    rw [getColor_eq_ite, hm, if_neg (not_lt.mpr h2)]
    unfold lerp3
    simp only [Prod.mk.injEq]

/-- Witness for C7 at a speed beyond the maximum. -/
theorem getColor_ramp_witness :
    MAX_CURRENT_SPEED ≤ 2 ∧ getColor 2 = (255, 0, 200) :=
  ⟨by norm_num [MAX_CURRENT_SPEED],
   getColor_ramp.2.1 2 (by norm_num [MAX_CURRENT_SPEED])⟩

/-! ### Per-source speed bound and color reachability (claim C10) -/

lemma mem_mockGrid {b : Bounds} {t r po m d : ℝ} {p : CurrentPoint}
    (hp : p ∈ (generateMockGrid b t r po m d).getD []) :
    ∃ lon lat, p = mockPoint t po m d lon lat := by
  unfold generateMockGrid at hp
  split at hp
  · simp at hp
  · simp at hp
  · split at hp
    · simp at hp
    · simp only [Option.getD_some, List.mem_flatMap, List.mem_map] at hp
      obtain ⟨lon, _, lat, _, hpe⟩ := hp
      exact ⟨lon, lat, hpe.symm⟩

lemma mockPoint_speed_bound (t po m d lon lat : ℝ) (hm : 0 ≤ m) :
    0 ≤ (mockPoint t po m d lon lat).speed ∧
      (mockPoint t po m d lon lat).speed ≤ MAX_CURRENT_SPEED * m := by
  have hsp : (mockPoint t po m d lon lat).speed =
      |Real.cos ((jsMod t TIDE_PERIOD_MS / TIDE_PERIOD_MS + po) * 2 * Real.pi) *
        MAX_CURRENT_SPEED * m| := rfl
  rw [hsp]
  refine ⟨abs_nonneg _, ?_⟩
  rw [abs_mul, abs_mul, abs_of_nonneg hm,
    abs_of_nonneg (show (0:ℝ) ≤ MAX_CURRENT_SPEED by norm_num [MAX_CURRENT_SPEED])]
  have h1 := Real.abs_cos_le_one
    ((jsMod t TIDE_PERIOD_MS / TIDE_PERIOD_MS + po) * 2 * Real.pi)
  have h2 : (0:ℝ) ≤ MAX_CURRENT_SPEED := by norm_num [MAX_CURRENT_SPEED]
  have h3 : (0:ℝ) ≤ MAX_CURRENT_SPEED * m := mul_nonneg h2 hm
  nlinarith [mul_nonneg (sub_nonneg.mpr h1) h3]

lemma getColor_fst_lt (s : ℝ) (h0 : 0 ≤ s) (h1 : s < MAX_CURRENT_SPEED) :
    (getColor s).1 < 255 := by
  have hmax : (0:ℝ) < MAX_CURRENT_SPEED := by norm_num [MAX_CURRENT_SPEED]
  have hm : min (s / MAX_CURRENT_SPEED) 1 = s / MAX_CURRENT_SPEED :=
    min_eq_left ((div_le_one hmax).mpr h1.le)
  have hlt1 : s / MAX_CURRENT_SPEED < 1 := (div_lt_one hmax).mpr h1
  have hge0 : 0 ≤ s / MAX_CURRENT_SPEED := div_nonneg h0 hmax.le
  rw [getColor_eq_ite, hm]
  split_ifs with h
  · show 30 + (88 - 30) * (s / MAX_CURRENT_SPEED * 2) < 255
    nlinarith
  · show 88 + (255 - 88) * ((s / MAX_CURRENT_SPEED - 0.5) * 2) < 255
    nlinarith

lemma mockPoint_color_ne (t po m d lon lat : ℝ) (hm : 0 ≤ m) (hm1 : m < 1) :
    (mockPoint t po m d lon lat).color ≠ (255, 0, 200) := by
  have hc : (mockPoint t po m d lon lat).color =
      getColor ((mockPoint t po m d lon lat).speed) := rfl
  obtain ⟨hs0, hs1⟩ := mockPoint_speed_bound t po m d lon lat hm
  have hmax : (0:ℝ) < MAX_CURRENT_SPEED := by norm_num [MAX_CURRENT_SPEED]
  have hlt : (mockPoint t po m d lon lat).speed < MAX_CURRENT_SPEED := by
    have : MAX_CURRENT_SPEED * m < MAX_CURRENT_SPEED * 1 := by nlinarith
    simpa using lt_of_le_of_lt hs1 this
  have hfst := getColor_fst_lt _ hs0 hlt
  rw [hc]
  intro heq
  rw [heq] at hfst
  norm_num at hfst

/-- Claim C10: every vector produced by a registry source has speed at most
MAX_CURRENT_SPEED times that source speed multiplier (1 for rws, 0.8 for
cmems); in particular the cmems source stays at or below 1.2 m/s and its
color never reaches the fast endpoint (255, 0, 200). -/
theorem speed_bounded_by_multiplier (src : DataSource) (hsrc : src ∈ DATA_SOURCES)
    (b : Bounds) (t r : ℝ) (p : CurrentPoint)
    (hp : p ∈ (src.getGrid b t r).getD []) :
    p.speed ≤ MAX_CURRENT_SPEED * 1 ∧
      (src.id = "cmems" →
        p.speed ≤ MAX_CURRENT_SPEED * 0.8 ∧ p.color ≠ (255, 0, 200)) := by
  have hcases : src = rwsSource ∨ src = cmemsSource := by
    simpa [DATA_SOURCES] using hsrc
  rcases hcases with h | h <;> subst h
  · obtain ⟨lon, lat, rfl⟩ := mem_mockGrid hp
    refine ⟨(mockPoint_speed_bound t 0 1 0 lon lat (by norm_num)).2, ?_⟩
    intro hid
    exact absurd hid (by decide)
  · obtain ⟨lon, lat, rfl⟩ := mem_mockGrid hp
    have hb := mockPoint_speed_bound t 0.25 0.8 0.1 lon lat (by norm_num)
    refine ⟨le_trans hb.2 (by norm_num [MAX_CURRENT_SPEED]), fun _ => ⟨hb.2, ?_⟩⟩
    exact mockPoint_color_ne t 0.25 0.8 0.1 lon lat (by norm_num) (by norm_num)

lemma rws_grid_box0 :
    rwsSource.getGrid ⟨0, 0, 0, 0⟩ 0 1 = some [mockPoint 0 0 1 0 0 0] := by
  show generateMockGrid ⟨0, 0, 0, 0⟩ 0 1 0 1 0 = _
  unfold generateMockGrid
  rw [realRange_single 0 1 one_pos]
  rfl

/-- Witness for C10: the single vector of the first source on the origin box
at time 0. -/
theorem speed_bounded_by_multiplier_witness :
    (mockPoint 0 0 1 0 0 0).speed ≤ MAX_CURRENT_SPEED * 1 :=
  (speed_bounded_by_multiplier rwsSource (by simp [DATA_SOURCES]) ⟨0, 0, 0, 0⟩ 0 1
    (mockPoint 0 0 1 0 0 0)
    (by rw [rws_grid_box0]; simp)).1

end Drft
